import Mathlib

/-!
Shallow embedding of the task-construction layer of the `sup` fleet
command-execution orchestrator (source file `task.go`, package `sup`).

The Go code performs file I/O (resolving the working directory, opening and
reading template/script/variable files, building tar streams) through external
collaborators.  Those collaborators are modelled by an explicit oracle
structure `Env` of pure functions returning `Except String _`; `createTasks`
itself is a pure function of the oracle and its arguments.  Go errors are
modelled as strings (`errors.Wrap(err, msg)` produces the message
`msg ++ ": " ++ err`), and a Go runtime panic (out-of-range slice index) is a
distinct error constructor, since a panic propagates differently from a
returned error value.
-/

namespace Sup

/-- A client: either an addressable remote execution endpoint (opaque to the
task builder, identified here by its host string), or the implicit
`LocalhostClient` built inline by the `Local` branch of `createTasks`, which
carries an environment-prefix string and the host it was connected to. -/
inductive Client where
  | ssh (host : String)
  | localhost (env : String) (host : String)
deriving DecidableEq, Repr

/-- A task's input stream: none (Go nil `io.Reader`), a tar archive stream
(modelled by an opaque token produced by the oracle), or the process's
standard input (`os.Stdin`). -/
inductive Input where
  | noInput
  | tar (stream : String)
  | stdin
deriving DecidableEq, Repr

/-- Variable mapping decoded from the template variable file
(`map[string]interface{}` in Go, modelled as an association list). -/
def VarMap := List (String × String)
deriving DecidableEq, Repr

/-- Go struct `CommandTask`: fixed command line, static input, client set,
TTY flag. -/
structure CommandTask where
  run : String
  input : Input
  clients : List Client
  tty : Bool
deriving DecidableEq, Repr

/-- Go struct `TemplateTask`: parsed template (an opaque token produced by the
oracle's parser), destination path, variable mapping, client set. -/
structure TemplateTask where
  tmpl : String
  dst : String
  vars : VarMap
  clients : List Client
deriving DecidableEq, Repr

/-- The `Task` interface: the two concrete implementations in `task.go`. -/
inductive Task where
  | cmd (t : CommandTask)
  | tmpl (t : TemplateTask)
deriving DecidableEq, Repr

/-- The client set of a task (`Clients()` of either variant). -/
def Task.clientsOf : Task → List Client
  | .cmd t => t.clients
  | .tmpl t => t.clients

/-- An upload entry of a command specification: `{Src, Dst, Exc}`. -/
structure UploadSpec where
  Src : String
  Dst : String
  Exc : String
deriving DecidableEq, Repr

/-- The template entry of a command specification: `{Src, Dst, Vars}`. -/
structure TemplateSpec where
  Src : String
  Dst : String
  Vars : String
deriving DecidableEq, Repr

/-- A command specification (the fields of `Command` consumed by
`createTasks`).  `Serial` is a Go `int`, hence `Int` here: the code only
tests `Serial > 0`. -/
structure Command where
  Upload : List UploadSpec
  Template : TemplateSpec
  Script : String
  Local : String
  Run : String
  Once : Bool
  Serial : Int
  Stdin : Bool
deriving DecidableEq, Repr

/-- The receiver state of `createTasks` (`*Stackup`): only its `debug` flag is
read. -/
structure Stackup where
  debug : Bool
deriving DecidableEq, Repr

/-- Outcome of a failing Go computation: a returned `error` value, or a
runtime panic (which `createTasks` never catches). -/
inductive GoErr where
  | fail (msg : String)
  | panic (msg : String)
deriving DecidableEq, Repr

/-- Oracle for the external collaborators `createTasks` calls: working
directory, file system, tar streaming, template parsing and execution, YAML
decoding.  Each is a pure function; file handles and parsed templates are
opaque string tokens chosen by the oracle. -/
structure Env where
  getwd : Except String String
  resolveLocalPath : String → String → String → Except String String
  newTarStreamReader : String → String → String → Except String String
  remoteTarCommand : String → String
  openFile : String → Except String String
  readAll : String → Except String String
  parseTemplate : String → Except String String
  yamlUnmarshal : String → Except String VarMap
  tmplExecute : String → Client → VarMap → Except String String

/-- `errors.Wrap(err, msg)`: lifts an external failure into the builder's
error channel, prefixing the context message (`pkg/errors` renders the
wrapped error as `msg ++ ": " ++ err`). -/
def wrapE (msg : String) : Except String α → Except GoErr α
  | .ok a => .ok a
  | .error err => .error (.fail (msg ++ ": " ++ err))

/-- Worker for `chunks`: structural recursion on a fuel bound. -/
def chunksGo (n : Nat) : Nat → List α → List (List α)
  | _, [] => []
  | 0, _ :: _ => []
  | fuel + 1, x :: xs => ((x :: xs).take n) :: chunksGo n fuel ((x :: xs).drop n)

/-- Consecutive chunks of size `n` of a list, in order: the slices
`clients[i:j]` produced by the Go loop
`for i := 0; i < len(clients); i += Serial` with `j = min(i+Serial, len)`.
The Go loop only runs with `Serial > 0`; `chunks 0` is given the value `[]`
to stay total.  The recursion is driven by a fuel argument (the list length
bounds the chunk count, since `n > 0` drops at least one element per step). -/
def chunks (n : Nat) (l : List α) : List (List α) :=
  if n = 0 then [] else chunksGo n l.length l

/-- The shared client-partitioning tail of the Upload/Script/Run branches
(`task.go` lines 102–119, 198–215, 250–267): `Once` takes the first client —
Go's `clients[0]`, a runtime panic on an empty list; otherwise `Serial > 0`
chunks the list; otherwise one task over the whole list. -/
def appendPartitioned (task : CommandTask) (once : Bool) (serial : Int)
    (clients : List Client) : Except GoErr (List Task) :=
  if once then
    match clients with
    | [] => .error (.panic "runtime error: index out of range [0] with length 0")
    | c :: _ => .ok [Task.cmd { task with clients := [c] }]
  else if 0 < serial then
    .ok ((chunks serial.toNat clients).map fun g => Task.cmd { task with clients := g })
  else
    .ok [Task.cmd { task with clients := clients }]

/-- The partitioning tail of the Template branch (`task.go` lines 160–174):
identical to `appendPartitioned` except that there is no `Once` case. -/
def templateAppend (task : TemplateTask) (serial : Int)
    (clients : List Client) : List Task :=
  if 0 < serial then
    (chunks serial.toNat clients).map fun g => Task.tmpl { task with clients := g }
  else
    [Task.tmpl { task with clients := clients }]

/-- The Upload section of `createTasks` (`task.go` lines 86–120): for each
upload entry resolve the source, build the tar stream, and partition a
`CommandTask` with the remote tar-extraction command line, the stream as
input and `tty = false`. -/
def buildUploadTasks (e : Env) (cmd : Command) (clients : List Client)
    (env cwd : String) : List UploadSpec → Except GoErr (List Task)
  | [] => .ok []
  | u :: rest => do
    let uploadFile ← wrapE ("upload: " ++ u.Src) (e.resolveLocalPath cwd u.Src env)
    let tar ← wrapE ("upload: " ++ u.Src) (e.newTarStreamReader cwd uploadFile u.Exc)
    let ts ← appendPartitioned
      { run := e.remoteTarCommand u.Dst, input := .tar tar, clients := [], tty := false }
      cmd.Once cmd.Serial clients
    let more ← buildUploadTasks e cmd clients env cwd rest
    .ok (ts ++ more)

/-- The variable-file step of the Template section (`task.go` lines 138–152):
`vars` starts empty; when `Template.Vars` is set, open, read and
YAML-decode it, each failure wrapped with its context message. -/
def buildTemplateVars (e : Env) (varsPath : String) : Except GoErr VarMap :=
  if varsPath = "" then .ok []
  else do
    let varf ← wrapE "can't read variables" (e.openFile varsPath)
    let vardata ← wrapE "can't read variables" (e.readAll varf)
    wrapE "can't parse variables" (e.yamlUnmarshal vardata)

/-- The Template section of `createTasks` (`task.go` lines 122–175): when both
`Template.Src` and `Template.Dst` are set, open, read and parse the template,
decode the variable file, and partition a `TemplateTask` (no `Once` case). -/
def buildTemplateTasks (e : Env) (cmd : Command) (clients : List Client) :
    Except GoErr (List Task) :=
  if cmd.Template.Src = "" ∨ cmd.Template.Dst = "" then .ok []
  else do
    let f ← wrapE "can't open template" (e.openFile cmd.Template.Src)
    let data ← wrapE "can't open template" (e.readAll f)
    let tmpl ← wrapE "can't parse template" (e.parseTemplate data)
    let vars ← buildTemplateVars e cmd.Template.Vars
    .ok (templateAppend
      { tmpl := tmpl, dst := cmd.Template.Dst, vars := vars, clients := [] }
      cmd.Serial clients)

/-- The Script section of `createTasks` (`task.go` lines 178–216): read the
script file as the command body, prefix `set -x;` in debug mode, attach stdin
when `Stdin` is set, `tty = true`, then partition. -/
def buildScriptTasks (e : Env) (sup : Stackup) (cmd : Command)
    (clients : List Client) : Except GoErr (List Task) :=
  if cmd.Script = "" then .ok []
  else do
    let f ← wrapE "can't open script" (e.openFile cmd.Script)
    let data ← wrapE "can't read script" (e.readAll f)
    appendPartitioned
      { run := if sup.debug then "set -x;" ++ data else data
        input := if cmd.Stdin then .stdin else .noInput
        clients := []
        tty := true }
      cmd.Once cmd.Serial clients

/-- The environment string of the inline `LocalhostClient`
(`task.go` line 221): the prefix extended with a `SUP_HOST` binding. -/
def localhostEnv (env : String) : String :=
  env ++ "export SUP_HOST=\"localhost\";"

/-- The Local section of `createTasks` (`task.go` lines 219–236): when
`Local` is set, exactly one `CommandTask` over a single inline localhost
client, `tty = true`, no partitioning. -/
def buildLocalTasks (sup : Stackup) (cmd : Command) (env : String) : List Task :=
  if cmd.Local = "" then []
  else
    [Task.cmd
      { run := if sup.debug then "set -x;" ++ cmd.Local else cmd.Local
        input := if cmd.Stdin then .stdin else .noInput
        clients := [Client.localhost (localhostEnv env) "localhost"]
        tty := true }]

/-- The Remote-run section of `createTasks` (`task.go` lines 239–268): the
literal `Run` string as command body, debug prefix, optional stdin,
`tty = true`, then partition. -/
def buildRunTasks (sup : Stackup) (cmd : Command) (clients : List Client) :
    Except GoErr (List Task) :=
  if cmd.Run = "" then .ok []
  else
    appendPartitioned
      { run := if sup.debug then "set -x;" ++ cmd.Run else cmd.Run
        input := if cmd.Stdin then .stdin else .noInput
        clients := []
        tty := true }
      cmd.Once cmd.Serial clients

/-- `(*Stackup).createTasks(cmd, clients, env)` (`task.go` lines 77–271):
resolve the working directory, then append the Upload, Template, Script,
Local and Remote-run sections in that order; the first failing step aborts
the whole build with `(nil, error)`. -/
def createTasks (e : Env) (sup : Stackup) (cmd : Command)
    (clients : List Client) (env : String) : Except GoErr (List Task) := do
  let cwd ← wrapE "resolving CWD failed" e.getwd
  let t1 ← buildUploadTasks e cmd clients env cwd cmd.Upload
  let t2 ← buildTemplateTasks e cmd clients
  let t3 ← buildScriptTasks e sup cmd clients
  let t4 := buildLocalTasks sup cmd env
  let t5 ← buildRunTasks sup cmd clients
  .ok (t1 ++ t2 ++ t3 ++ t4 ++ t5)

/-- A Go substring test (`strings.Contains`), used to state whether an error
message names a path: character-list prefix test. -/
def isPrefixChars : List Char → List Char → Bool
  | [], _ => true
  | _ :: _, [] => false
  | a :: as, b :: bs => a == b && isPrefixChars as bs

/-- Whether `sub` occurs contiguously in `l`. -/
def hasSubChars (sub : List Char) : List Char → Bool
  | [] => isPrefixChars sub []
  | b :: bs => isPrefixChars sub (b :: bs) || hasSubChars sub bs

/-- Whether the string `sub` appears (contiguously) in the string `s`. -/
def strAppears (sub s : String) : Bool := hasSubChars sub.data s.data

/-- `(*TemplateTask).InputForClient(c)` (`task.go` lines 51–61): render the
parsed template into a fresh buffer against a context of the addressed
client and the variable mapping.  The Go method reads the receiver's fields
and writes only to a local buffer; the embedding makes that explicit by
returning the rendering result together with the receiver state after the
call. -/
def TemplateTask.InputForClient (e : Env) (t : TemplateTask) (c : Client) :
    Except String String × TemplateTask :=
  (e.tmplExecute t.tmpl c t.vars, t)

/-! ### Basic lemmas about the chunk partition -/

theorem chunks_nil (n : Nat) : chunks n ([] : List α) = [] := by
  unfold chunks
  split
  · rfl
  · rfl

theorem chunks_eq_go (n : Nat) (hn : 0 < n) (l : List α) :
    chunks n l = chunksGo n l.length l := by
  unfold chunks
  rw [if_neg (by omega)]

/-- With chunk size `n > 0` and enough fuel, the number of chunks is
`⌈length / n⌉`, written `(length + n - 1) / n`. -/
theorem chunksGo_length (n : Nat) (hn : 0 < n) :
    ∀ (fuel : Nat) (l : List α), l.length ≤ fuel →
      (chunksGo n fuel l).length = (l.length + n - 1) / n := by
  intro fuel
  induction fuel with
  | zero =>
    intro l hl
    cases l with
    | nil =>
      simp only [chunksGo, List.length_nil, Nat.zero_add]
      exact (Nat.div_eq_of_lt (by omega)).symm
    | cons x xs => simp at hl
  | succ m ih =>
    intro l hl
    cases l with
    | nil =>
      simp only [chunksGo, List.length_nil, Nat.zero_add]
      exact (Nat.div_eq_of_lt (by omega)).symm
    | cons x xs =>
      simp only [chunksGo, List.length_cons]
      rw [ih ((x :: xs).drop n) (by simp only [List.length_drop, List.length_cons] at hl ⊢; omega)]
      simp only [List.length_drop, List.length_cons]
      rcases le_or_lt (xs.length + 1) n with hc | hc
      · have e1 : xs.length + 1 - n = 0 := by omega
        rw [e1]
        have e2 : (0 + n - 1) / n = 0 := Nat.div_eq_of_lt (by omega)
        have e3 : xs.length + 1 + n - 1 = xs.length + n := by omega
        rw [e2, e3, Nat.add_div_right _ hn]
        have e4 : xs.length / n = 0 := Nat.div_eq_of_lt (by omega)
        rw [e4]
      · have e1 : xs.length + 1 - n + n - 1 = xs.length := by omega
        have e2 : xs.length + 1 + n - 1 = xs.length + n := by omega
        rw [e1, e2, Nat.add_div_right _ hn]

/-- Concatenating the chunks in order reproduces the original list. -/
theorem chunksGo_flatten (n : Nat) (hn : 0 < n) :
    ∀ (fuel : Nat) (l : List α), l.length ≤ fuel →
      (chunksGo n fuel l).flatten = l := by
  intro fuel
  induction fuel with
  | zero =>
    intro l hl
    cases l with
    | nil => rfl
    | cons x xs => simp at hl
  | succ m ih =>
    intro l hl
    cases l with
    | nil => rfl
    | cons x xs =>
      simp only [chunksGo, List.flatten_cons]
      rw [ih ((x :: xs).drop n) (by simp only [List.length_drop, List.length_cons] at hl ⊢; omega)]
      exact List.take_append_drop _ _

/-- Every chunk has at most `n` elements. -/
theorem chunksGo_mem_length_le (n : Nat) :
    ∀ (fuel : Nat) (l c : List α), c ∈ chunksGo n fuel l → c.length ≤ n := by
  intro fuel
  induction fuel with
  | zero =>
    intro l c hc
    cases l with
    | nil => cases hc
    | cons x xs => cases hc
  | succ m ih =>
    intro l c hc
    cases l with
    | nil => cases hc
    | cons x xs =>
      simp only [chunksGo, List.mem_cons] at hc
      rcases hc with hc | hc
      · subst hc; exact List.length_take_le _ _
      · exact ih _ c hc

/-- With `n > 0`, no chunk is empty. -/
theorem chunksGo_mem_ne_nil (n : Nat) (hn : 0 < n) :
    ∀ (fuel : Nat) (l c : List α), c ∈ chunksGo n fuel l → c ≠ [] := by
  intro fuel
  induction fuel with
  | zero =>
    intro l c hc
    cases l with
    | nil => cases hc
    | cons x xs => cases hc
  | succ m ih =>
    intro l c hc
    cases l with
    | nil => cases hc
    | cons x xs =>
      simp only [chunksGo, List.mem_cons] at hc
      rcases hc with hc | hc
      · subst hc
        cases n with
        | zero => omega
        | succ k => simp
      · exact ih _ c hc

/-- `c` is a contiguous slice of `l`: some `take` of some `drop` of `l`. -/
def ContigIn (c l : List α) : Prop := ∃ i k, c = (l.drop i).take k

/-- Every chunk is a contiguous slice of the original list. -/
theorem chunksGo_mem_contig (n : Nat) :
    ∀ (fuel : Nat) (l c : List α), c ∈ chunksGo n fuel l → ContigIn c l := by
  intro fuel
  induction fuel with
  | zero =>
    intro l c hc
    cases l with
    | nil => cases hc
    | cons x xs => cases hc
  | succ m ih =>
    intro l c hc
    cases l with
    | nil => cases hc
    | cons x xs =>
      simp only [chunksGo, List.mem_cons] at hc
      rcases hc with hc | hc
      · exact ⟨0, n, by simpa using hc⟩
      · rcases ih _ c hc with ⟨i, k, hik⟩
        exact ⟨n + i, k, by rw [hik, List.drop_drop]⟩

/-- With chunk size `n > 0`, the number of chunks is `⌈length / n⌉`. -/
theorem chunks_length (n : Nat) (l : List α) (h : 0 < n) :
    (chunks n l).length = (l.length + n - 1) / n := by
  rw [chunks_eq_go n h l]
  exact chunksGo_length n h l.length l le_rfl

/-- Concatenating the chunks in order reproduces the original list. -/
theorem chunks_flatten (n : Nat) (l : List α) (h : 0 < n) :
    (chunks n l).flatten = l := by
  rw [chunks_eq_go n h l]
  exact chunksGo_flatten n h l.length l le_rfl

/-- Every chunk has at most `n` elements. -/
theorem chunks_mem_length_le (n : Nat) (l c : List α) (hc : c ∈ chunks n l) :
    c.length ≤ n := by
  cases n with
  | zero => rw [chunks] at hc; simp at hc
  | succ k =>
    rw [chunks_eq_go (k + 1) (Nat.succ_pos k) l] at hc
    exact chunksGo_mem_length_le (k + 1) l.length l c hc

/-- No chunk is empty. -/
theorem chunks_mem_ne_nil (n : Nat) (l c : List α) (hc : c ∈ chunks n l) :
    c ≠ [] := by
  cases n with
  | zero => rw [chunks] at hc; simp at hc
  | succ k =>
    rw [chunks_eq_go (k + 1) (Nat.succ_pos k) l] at hc
    exact chunksGo_mem_ne_nil (k + 1) (Nat.succ_pos k) l.length l c hc

/-- Every chunk is a contiguous slice of the original list. -/
theorem chunks_mem_contig (n : Nat) (l c : List α) (hc : c ∈ chunks n l) :
    ContigIn c l := by
  cases n with
  | zero => rw [chunks] at hc; simp at hc
  | succ k =>
    rw [chunks_eq_go (k + 1) (Nat.succ_pos k) l] at hc
    exact chunksGo_mem_contig (k + 1) l.length l c hc

/-- On a duplicate-free list, the chunks are pairwise disjoint: no element
lands in two of them. -/
theorem chunks_pairwise_disjoint (n : Nat) (l : List α) (h : 0 < n)
    (hl : l.Nodup) : (chunks n l).Pairwise List.Disjoint :=
  (List.nodup_flatten.mp (by rw [chunks_flatten n l h]; exact hl)).2


/-! ### Plumbing lemmas: error wrapping and the partition helpers -/

theorem wrapE_ok (msg : String) (a : α) : wrapE msg (.ok a) = .ok a := rfl

theorem wrapE_err (msg m : String) :
    wrapE (α := α) msg (.error m) = .error (.fail (msg ++ ": " ++ m)) := rfl

/-- A failing `wrapE` step always yields a returned error value, never a
panic. -/
theorem wrapE_error_elim (msg : String) (x : Except String α) (ge : GoErr)
    (h : wrapE msg x = .error ge) : ∃ m, ge = .fail (msg ++ ": " ++ m) := by
  cases x with
  | ok a => exact absurd h (by rw [wrapE_ok]; exact fun hc => Except.noConfusion hc)
  | error m => rw [wrapE_err] at h; exact ⟨m, (Except.error.inj h).symm⟩

theorem appendPartitioned_once_nil (task : CommandTask) (serial : Int) :
    appendPartitioned task true serial []
      = .error (.panic "runtime error: index out of range [0] with length 0") := rfl

theorem appendPartitioned_once_cons (task : CommandTask) (serial : Int)
    (c : Client) (cs : List Client) :
    appendPartitioned task true serial (c :: cs)
      = .ok [Task.cmd { task with clients := [c] }] := rfl

theorem appendPartitioned_serial (task : CommandTask) (N : Nat) (hN : 0 < N)
    (clients : List Client) :
    appendPartitioned task false (N : Int) clients
      = .ok ((chunks N clients).map fun g => Task.cmd { task with clients := g }) := by
  have h1 : (0 : Int) < (N : Int) := by exact_mod_cast hN
  simp [appendPartitioned, h1]

theorem appendPartitioned_noserial (task : CommandTask) (serial : Int)
    (hs : serial ≤ 0) (clients : List Client) :
    appendPartitioned task false serial clients
      = .ok [Task.cmd { task with clients := clients }] := by
  simp [appendPartitioned, not_lt.mpr hs]

theorem templateAppend_serial (task : TemplateTask) (N : Nat) (hN : 0 < N)
    (clients : List Client) :
    templateAppend task (N : Int) clients
      = (chunks N clients).map fun g => Task.tmpl { task with clients := g } := by
  have h1 : (0 : Int) < (N : Int) := by exact_mod_cast hN
  simp [templateAppend, h1]

theorem templateAppend_noserial (task : TemplateTask) (serial : Int)
    (hs : serial ≤ 0) (clients : List Client) :
    templateAppend task serial clients
      = [Task.tmpl { task with clients := clients }] := by
  simp [templateAppend, not_lt.mpr hs]

/-- The partitioning contract of spec §8: chunk count `⌈L/N⌉`, chunk size at
most `N`, in-order concatenation reproduces the client list, and (on a
duplicate-free list) no client lands in two tasks. -/
def PartitionProps (N : Nat) (clients : List Client) (ts : List Task) : Prop :=
  ts.length = (clients.length + N - 1) / N
  ∧ (∀ t ∈ ts, (Task.clientsOf t).length ≤ N)
  ∧ (ts.map Task.clientsOf).flatten = clients
  ∧ (clients.Nodup → (ts.map Task.clientsOf).Pairwise List.Disjoint)

/-- Any task list obtained by wrapping the chunks of the client list
satisfies the partitioning contract. -/
theorem partitionProps_chunks_map (N : Nat) (hN : 0 < N)
    (clients : List Client) (mk : List Client → Task)
    (hmk : ∀ g, Task.clientsOf (mk g) = g) :
    PartitionProps N clients ((chunks N clients).map mk) := by
  have hmap : ((chunks N clients).map mk).map Task.clientsOf = chunks N clients := by
    rw [List.map_map]
    have : (Task.clientsOf ∘ mk) = id := funext fun g => hmk g
    rw [this, List.map_id]
  refine ⟨?_, ?_, ?_, ?_⟩
  · rw [List.length_map]; exact chunks_length N clients hN
  · intro t ht
    rcases List.mem_map.mp ht with ⟨g, hg, rfl⟩
    rw [hmk]
    exact chunks_mem_length_le N clients g hg
  · rw [hmap]; exact chunks_flatten N clients hN
  · intro hnd; rw [hmap]; exact chunks_pairwise_disjoint N clients hN hnd

/-! ### Elimination lemmas for the builder sections -/

theorem exceptBind_ok (a : α) (f : α → Except ε β) :
    (Except.ok a >>= f) = f a := rfl

theorem exceptBind_err (m : ε) (f : α → Except ε β) :
    ((Except.error m : Except ε α) >>= f) = Except.error m := rfl

theorem buildUploadTasks_nil (e : Env) (cmd : Command) (clients : List Client)
    (env cwd : String) : buildUploadTasks e cmd clients env cwd [] = .ok [] := rfl

/-- A successful Remote-run section is the partition of the run task. -/
theorem buildRunTasks_ok_elim (sup : Stackup) (cmd : Command)
    (clients : List Client) (ts : List Task) (hR : cmd.Run ≠ "")
    (h : buildRunTasks sup cmd clients = .ok ts) :
    appendPartitioned
      { run := if sup.debug then "set -x;" ++ cmd.Run else cmd.Run
        input := if cmd.Stdin then .stdin else .noInput
        clients := []
        tty := true } cmd.Once cmd.Serial clients = .ok ts := by
  unfold buildRunTasks at h
  rw [if_neg hR] at h
  exact h

/-- A successful Script section reveals a succeeding open and read, and is
the partition of the script task. -/
theorem buildScriptTasks_ok_elim (e : Env) (sup : Stackup) (cmd : Command)
    (clients : List Client) (ts : List Task) (hS : cmd.Script ≠ "")
    (h : buildScriptTasks e sup cmd clients = .ok ts) :
    ∃ f data, e.openFile cmd.Script = .ok f ∧ e.readAll f = .ok data ∧
      appendPartitioned
        { run := if sup.debug then "set -x;" ++ data else data
          input := if cmd.Stdin then .stdin else .noInput
          clients := []
          tty := true } cmd.Once cmd.Serial clients = .ok ts := by
  unfold buildScriptTasks at h
  rw [if_neg hS] at h
  cases hopen : e.openFile cmd.Script with
  | error m =>
    rw [hopen, wrapE_err, exceptBind_err] at h
    exact Except.noConfusion h
  | ok f =>
    rw [hopen, wrapE_ok, exceptBind_ok] at h
    cases hread : e.readAll f with
    | error m =>
      rw [hread, wrapE_err, exceptBind_err] at h
      exact Except.noConfusion h
    | ok data =>
      rw [hread, wrapE_ok, exceptBind_ok] at h
      exact ⟨f, data, rfl, hread, h⟩

/-- A successful one-entry Upload section reveals a succeeding path
resolution and tar stream, and is the partition of the upload task. -/
theorem buildUploadTasks_single_ok_elim (e : Env) (cmd : Command)
    (clients : List Client) (env cwd : String) (u : UploadSpec) (ts : List Task)
    (h : buildUploadTasks e cmd clients env cwd [u] = .ok ts) :
    ∃ file tar, e.resolveLocalPath cwd u.Src env = .ok file
      ∧ e.newTarStreamReader cwd file u.Exc = .ok tar
      ∧ appendPartitioned
          { run := e.remoteTarCommand u.Dst, input := .tar tar
            clients := [], tty := false }
          cmd.Once cmd.Serial clients = .ok ts := by
  unfold buildUploadTasks at h
  cases hres : e.resolveLocalPath cwd u.Src env with
  | error m =>
    rw [hres, wrapE_err, exceptBind_err] at h
    exact Except.noConfusion h
  | ok file =>
    rw [hres, wrapE_ok, exceptBind_ok] at h
    cases htar : e.newTarStreamReader cwd file u.Exc with
    | error m =>
      rw [htar, wrapE_err, exceptBind_err] at h
      exact Except.noConfusion h
    | ok tar =>
      rw [htar, wrapE_ok, exceptBind_ok] at h
      cases hap : appendPartitioned
          { run := e.remoteTarCommand u.Dst, input := .tar tar
            clients := [], tty := false } cmd.Once cmd.Serial clients with
      | error ge =>
        rw [hap, exceptBind_err] at h
        exact Except.noConfusion h
      | ok sub =>
        rw [hap, exceptBind_ok, buildUploadTasks_nil, exceptBind_ok] at h
        refine ⟨file, tar, rfl, htar, ?_⟩
        rw [hap]
        cases h
        rw [List.append_nil]

/-- A successful Template section reveals succeeding open, read, parse and
variable steps, and is the template partition of the template task. -/
theorem buildTemplateTasks_ok_elim (e : Env) (cmd : Command)
    (clients : List Client) (ts : List Task)
    (hsrc : cmd.Template.Src ≠ "") (hdst : cmd.Template.Dst ≠ "")
    (h : buildTemplateTasks e cmd clients = .ok ts) :
    ∃ f data tp vars, e.openFile cmd.Template.Src = .ok f
      ∧ e.readAll f = .ok data
      ∧ e.parseTemplate data = .ok tp
      ∧ buildTemplateVars e cmd.Template.Vars = .ok vars
      ∧ ts = templateAppend
          { tmpl := tp, dst := cmd.Template.Dst, vars := vars, clients := [] }
          cmd.Serial clients := by
  unfold buildTemplateTasks at h
  rw [if_neg (by simp [hsrc, hdst])] at h
  cases hopen : e.openFile cmd.Template.Src with
  | error m =>
    rw [hopen, wrapE_err, exceptBind_err] at h
    exact Except.noConfusion h
  | ok f =>
    rw [hopen, wrapE_ok, exceptBind_ok] at h
    cases hread : e.readAll f with
    | error m =>
      rw [hread, wrapE_err, exceptBind_err] at h
      exact Except.noConfusion h
    | ok data =>
      rw [hread, wrapE_ok, exceptBind_ok] at h
      cases hparse : e.parseTemplate data with
      | error m =>
        rw [hparse, wrapE_err, exceptBind_err] at h
        exact Except.noConfusion h
      | ok tp =>
        rw [hparse, wrapE_ok, exceptBind_ok] at h
        cases hvars : buildTemplateVars e cmd.Template.Vars with
        | error ge =>
          rw [hvars, exceptBind_err] at h
          exact Except.noConfusion h
        | ok vars =>
          rw [hvars, exceptBind_ok] at h
          exact ⟨f, data, tp, vars, rfl, hread, hparse, rfl, (Except.ok.inj h).symm⟩

theorem Task.clientsOf_cmd (t : CommandTask) :
    Task.clientsOf (Task.cmd t) = t.clients := rfl

theorem Task.clientsOf_tmpl (t : TemplateTask) :
    Task.clientsOf (Task.tmpl t) = t.clients := rfl

/-- The whole list is a contiguous slice of itself. -/
theorem contigIn_self (l : List α) : ContigIn l l :=
  ⟨0, l.length, by rw [List.drop_zero, List.take_length]⟩

/-- The singleton of the head is a contiguous slice. -/
theorem contigIn_head (c : α) (cs : List α) : ContigIn [c] (c :: cs) :=
  ⟨0, 1, rfl⟩

/-- A successful `createTasks` run decomposes into the five section outputs,
concatenated in Upload, Template, Script, Local, Remote-run order. -/
theorem createTasks_ok_decomp (e : Env) (sup : Stackup) (cmd : Command)
    (clients : List Client) (env : String) (ts : List Task)
    (h : createTasks e sup cmd clients env = .ok ts) :
    ∃ cwd tsU tsT tsS tsR, e.getwd = .ok cwd
      ∧ buildUploadTasks e cmd clients env cwd cmd.Upload = .ok tsU
      ∧ buildTemplateTasks e cmd clients = .ok tsT
      ∧ buildScriptTasks e sup cmd clients = .ok tsS
      ∧ buildRunTasks sup cmd clients = .ok tsR
      ∧ ts = tsU ++ tsT ++ tsS ++ buildLocalTasks sup cmd env ++ tsR := by
  unfold createTasks at h
  cases hgw : e.getwd with
  | error m =>
    rw [hgw, wrapE_err, exceptBind_err] at h
    exact Except.noConfusion h
  | ok cwd =>
    rw [hgw, wrapE_ok, exceptBind_ok] at h
    cases hu : buildUploadTasks e cmd clients env cwd cmd.Upload with
    | error ge =>
      rw [hu, exceptBind_err] at h
      exact Except.noConfusion h
    | ok tsU =>
      rw [hu, exceptBind_ok] at h
      cases ht : buildTemplateTasks e cmd clients with
      | error ge =>
        rw [ht, exceptBind_err] at h
        exact Except.noConfusion h
      | ok tsT =>
        rw [ht, exceptBind_ok] at h
        cases hs : buildScriptTasks e sup cmd clients with
        | error ge =>
          rw [hs, exceptBind_err] at h
          exact Except.noConfusion h
        | ok tsS =>
          rw [hs, exceptBind_ok] at h
          cases hr : buildRunTasks sup cmd clients with
          | error ge =>
            rw [hr, exceptBind_err] at h
            exact Except.noConfusion h
          | ok tsR =>
            rw [hr, exceptBind_ok] at h
            exact ⟨cwd, tsU, tsT, tsS, tsR, rfl, hu, rfl, rfl, rfl,
              (Except.ok.inj h).symm⟩

/-- Every task produced by a successful `appendPartitioned` call on a
non-empty client list is a copy of the template task over a non-empty
contiguous slice of the client list. -/
theorem appendPartitioned_ok_clients (task : CommandTask) (once : Bool)
    (serial : Int) (clients : List Client) (ts : List Task)
    (h : appendPartitioned task once serial clients = .ok ts)
    (hne : clients ≠ []) :
    ∀ t ∈ ts, (∃ g, t = Task.cmd { task with clients := g })
      ∧ Task.clientsOf t ≠ [] ∧ ContigIn (Task.clientsOf t) clients := by
  unfold appendPartitioned at h
  split at h
  · cases hcl : clients with
    | nil => exact absurd hcl hne
    | cons c cs =>
      subst hcl
      cases h
      intro t ht
      rw [List.mem_singleton] at ht
      subst ht
      refine ⟨⟨[c], rfl⟩, ?_, ?_⟩
      · rw [Task.clientsOf_cmd]; exact List.cons_ne_nil c []
      · rw [Task.clientsOf_cmd]; exact contigIn_head c cs
  · split at h
    · cases h
      intro t ht
      rcases List.mem_map.mp ht with ⟨g, hg, rfl⟩
      refine ⟨⟨g, rfl⟩, ?_, ?_⟩
      · rw [Task.clientsOf_cmd]; exact chunks_mem_ne_nil _ clients g hg
      · rw [Task.clientsOf_cmd]; exact chunks_mem_contig _ clients g hg
    · cases h
      intro t ht
      rw [List.mem_singleton] at ht
      subst ht
      refine ⟨⟨clients, rfl⟩, ?_, ?_⟩
      · rw [Task.clientsOf_cmd]; exact hne
      · rw [Task.clientsOf_cmd]; exact contigIn_self clients

/-- Every task produced by `templateAppend` on a non-empty client list is a
copy of the template task over a non-empty contiguous slice. -/
theorem templateAppend_mem_clients (task : TemplateTask) (serial : Int)
    (clients : List Client) (hne : clients ≠ []) :
    ∀ t ∈ templateAppend task serial clients,
      (∃ g, t = Task.tmpl { task with clients := g })
      ∧ Task.clientsOf t ≠ [] ∧ ContigIn (Task.clientsOf t) clients := by
  unfold templateAppend
  split
  · intro t ht
    rcases List.mem_map.mp ht with ⟨g, hg, rfl⟩
    refine ⟨⟨g, rfl⟩, ?_, ?_⟩
    · rw [Task.clientsOf_tmpl]; exact chunks_mem_ne_nil _ clients g hg
    · rw [Task.clientsOf_tmpl]; exact chunks_mem_contig _ clients g hg
  · intro t ht
    rw [List.mem_singleton] at ht
    subst ht
    refine ⟨⟨clients, rfl⟩, ?_, ?_⟩
    · rw [Task.clientsOf_tmpl]; exact hne
    · rw [Task.clientsOf_tmpl]; exact contigIn_self clients

/-- Every task produced by a successful Upload section comes from the
partition of some upload task (no TTY, tar-stream input). -/
theorem buildUploadTasks_ok_mem (e : Env) (cmd : Command)
    (clients : List Client) (env cwd : String) (us : List UploadSpec)
    (ts : List Task) (h : buildUploadTasks e cmd clients env cwd us = .ok ts) :
    ∀ t ∈ ts, ∃ task : CommandTask, task.tty = false ∧ (∃ s, task.input = .tar s)
      ∧ ∃ sub, appendPartitioned task cmd.Once cmd.Serial clients = .ok sub
        ∧ t ∈ sub := by
  induction us generalizing ts with
  | nil =>
    rw [buildUploadTasks_nil] at h
    cases h
    intro t ht
    cases ht
  | cons u rest ih =>
    unfold buildUploadTasks at h
    cases hres : e.resolveLocalPath cwd u.Src env with
    | error m =>
      rw [hres, wrapE_err, exceptBind_err] at h
      exact Except.noConfusion h
    | ok file =>
      rw [hres, wrapE_ok, exceptBind_ok] at h
      cases htar : e.newTarStreamReader cwd file u.Exc with
      | error m =>
        rw [htar, wrapE_err, exceptBind_err] at h
        exact Except.noConfusion h
      | ok tar =>
        rw [htar, wrapE_ok, exceptBind_ok] at h
        cases hap : appendPartitioned
            { run := e.remoteTarCommand u.Dst, input := .tar tar
              clients := [], tty := false } cmd.Once cmd.Serial clients with
        | error ge =>
          rw [hap, exceptBind_err] at h
          exact Except.noConfusion h
        | ok sub =>
          rw [hap, exceptBind_ok] at h
          cases hrest : buildUploadTasks e cmd clients env cwd rest with
          | error ge =>
            rw [hrest, exceptBind_err] at h
            exact Except.noConfusion h
          | ok more =>
            rw [hrest, exceptBind_ok] at h
            cases h
            intro t ht
            rcases List.mem_append.mp ht with ht | ht
            · exact ⟨_, rfl, ⟨tar, rfl⟩, sub, hap, ht⟩
            · exact ih more hrest t ht

/-! ### Concrete fixtures used by the example theorems -/

/-- Five remote clients, in order. -/
def demoClients : List Client :=
  [.ssh "a", .ssh "b", .ssh "c", .ssh "d", .ssh "e"]

/-- An oracle on which every external step succeeds. -/
def demoEnv : Env :=
  { getwd := .ok "/w"
    resolveLocalPath := fun _ src _ => .ok src
    newTarStreamReader := fun _ f _ => .ok ("tar:" ++ f)
    remoteTarCommand := fun dst => "tar -C " ++ dst
    openFile := fun p => .ok p
    readAll := fun hdl => .ok ("data:" ++ hdl)
    parseTemplate := fun d => .ok ("parsed:" ++ d)
    yamlUnmarshal := fun _ => .ok [("k", "v")]
    tmplExecute := fun tp c _ =>
      .ok (tp ++ "/" ++ (match c with | .ssh h => h | .localhost _ h => h)) }

/-- A command with every sub-kind populated, `Serial = 2`, `Once = false`. -/
def demoCmdSerial : Command :=
  { Upload := [{ Src := "s", Dst := "d", Exc := "x" }]
    Template := { Src := "tpl", Dst := "out", Vars := "vars" }
    Script := "sc.sh", Local := "echo hi", Run := "uptime"
    Once := false, Serial := 2, Stdin := false }

/-! ### The claims -/

theorem appendPartitioned_ok_partitionProps (task : CommandTask) (N : Nat)
    (clients : List Client) (ts : List Task) (hN : 0 < N)
    (h : appendPartitioned task false (N : Int) clients = .ok ts) :
    PartitionProps N clients ts := by
  rw [appendPartitioned_serial task N hN clients] at h
  cases h
  exact partitionProps_chunks_map N hN clients _ fun g => rfl

theorem templateAppend_partitionProps (task : TemplateTask) (N : Nat)
    (clients : List Client) (hN : 0 < N) :
    PartitionProps N clients (templateAppend task (N : Int) clients) := by
  rw [templateAppend_serial task N hN clients]
  exact partitionProps_chunks_map N hN clients _ fun g => rfl

/-- C1: for a non-empty client list of length `L` and a command specification
with `Serial = N > 0` and `Once = false`, each populated sub-kind among
Upload (one entry), Template, Script and Run yields from the corresponding
section of `createTasks` exactly `⌈L/N⌉` tasks, each task's client set has at
most `N` clients, the concatenation of the task client sets in task order
reproduces the original client list exactly, and — on a duplicate-free
client list — no client appears in two tasks of the same sub-kind. -/
theorem createTasks_serial_partition (e : Env) (sup : Stackup) (cmd : Command)
    (clients : List Client) (env cwd : String) (N : Nat)
    (hne : clients ≠ []) (hN : 0 < N) (hser : cmd.Serial = (N : Int))
    (honce : cmd.Once = false) :
    (∀ u ts, cmd.Upload = [u] →
        buildUploadTasks e cmd clients env cwd cmd.Upload = .ok ts →
        PartitionProps N clients ts)
    ∧ (∀ ts, cmd.Template.Src ≠ "" → cmd.Template.Dst ≠ "" →
        buildTemplateTasks e cmd clients = .ok ts → PartitionProps N clients ts)
    ∧ (∀ ts, cmd.Script ≠ "" → buildScriptTasks e sup cmd clients = .ok ts →
        PartitionProps N clients ts)
    ∧ (∀ ts, cmd.Run ≠ "" → buildRunTasks sup cmd clients = .ok ts →
        PartitionProps N clients ts) := by
  refine ⟨?_, ?_, ?_, ?_⟩
  · intro u ts hU h
    rw [hU] at h
    rcases buildUploadTasks_single_ok_elim e cmd clients env cwd u ts h with
      ⟨file, tar, _, _, hap⟩
    rw [honce, hser] at hap
    exact appendPartitioned_ok_partitionProps _ N clients ts hN hap
  · intro ts hsrc hdst h
    rcases buildTemplateTasks_ok_elim e cmd clients ts hsrc hdst h with
      ⟨f, data, tp, vars, _, _, _, _, hts⟩
    rw [hts, hser]
    exact templateAppend_partitionProps _ N clients hN
  · intro ts hS h
    rcases buildScriptTasks_ok_elim e sup cmd clients ts hS h with
      ⟨f, data, _, _, hap⟩
    rw [honce, hser] at hap
    exact appendPartitioned_ok_partitionProps _ N clients ts hN hap
  · intro ts hR h
    have hap := buildRunTasks_ok_elim sup cmd clients ts hR h
    rw [honce, hser] at hap
    exact appendPartitioned_ok_partitionProps _ N clients ts hN hap

/-- Witness for C1: 5 clients, `Serial = 2`, through the Run sub-kind — task
client-subset sizes `[2, 2, 1]` in original order. -/
theorem createTasks_serial_partition_witness :
    PartitionProps 2 demoClients
      [ Task.cmd { run := "uptime", input := .noInput
                   clients := [.ssh "a", .ssh "b"], tty := true },
        Task.cmd { run := "uptime", input := .noInput
                   clients := [.ssh "c", .ssh "d"], tty := true },
        Task.cmd { run := "uptime", input := .noInput
                   clients := [.ssh "e"], tty := true } ] :=
  (createTasks_serial_partition demoEnv { debug := false } demoCmdSerial
      demoClients "E;" "/w" 2 (by decide) (by decide) (by decide) rfl).2.2.2
    _ (by decide) rfl

/-- A command with every sub-kind populated, `Once = true`, `Serial = 2`. -/
def demoCmdOnce : Command :=
  { Upload := [{ Src := "s", Dst := "d", Exc := "x" }]
    Template := { Src := "tpl", Dst := "out", Vars := "vars" }
    Script := "sc.sh", Local := "echo hi", Run := "uptime"
    Once := true, Serial := 2, Stdin := false }

theorem appendPartitioned_ok_once (task : CommandTask) (serial : Int)
    (c : Client) (cs : List Client) (ts : List Task)
    (h : appendPartitioned task true serial (c :: cs) = .ok ts) :
    ts.length = 1 ∧ ∀ t ∈ ts, Task.clientsOf t = [c] := by
  rw [appendPartitioned_once_cons] at h
  cases h
  refine ⟨rfl, ?_⟩
  intro t ht
  rw [List.mem_singleton] at ht
  subst ht
  rfl

/-- C2: with `Once = true` and a non-empty client list, each populated
sub-kind among Upload (one entry), Script and Run yields from the
corresponding section of `createTasks` exactly one task whose client set is
exactly the first client of the supplied list, regardless of `Serial`. -/
theorem createTasks_once_single (e : Env) (sup : Stackup) (cmd : Command)
    (c : Client) (cs : List Client) (env cwd : String)
    (honce : cmd.Once = true) :
    (∀ u ts, cmd.Upload = [u] →
        buildUploadTasks e cmd (c :: cs) env cwd cmd.Upload = .ok ts →
        ts.length = 1 ∧ ∀ t ∈ ts, Task.clientsOf t = [c])
    ∧ (∀ ts, cmd.Script ≠ "" →
        buildScriptTasks e sup cmd (c :: cs) = .ok ts →
        ts.length = 1 ∧ ∀ t ∈ ts, Task.clientsOf t = [c])
    ∧ (∀ ts, cmd.Run ≠ "" →
        buildRunTasks sup cmd (c :: cs) = .ok ts →
        ts.length = 1 ∧ ∀ t ∈ ts, Task.clientsOf t = [c]) := by
  refine ⟨?_, ?_, ?_⟩
  · intro u ts hU h
    rw [hU] at h
    rcases buildUploadTasks_single_ok_elim e cmd (c :: cs) env cwd u ts h with
      ⟨file, tar, _, _, hap⟩
    rw [honce] at hap
    exact appendPartitioned_ok_once _ cmd.Serial c cs ts hap
  · intro ts hS h
    rcases buildScriptTasks_ok_elim e sup cmd (c :: cs) ts hS h with
      ⟨f, data, _, _, hap⟩
    rw [honce] at hap
    exact appendPartitioned_ok_once _ cmd.Serial c cs ts hap
  · intro ts hR h
    have hap := buildRunTasks_ok_elim sup cmd (c :: cs) ts hR h
    rw [honce] at hap
    exact appendPartitioned_ok_once _ cmd.Serial c cs ts hap

/-- Witness for C2: 5 clients, `Once = true`, `Serial = 2`, through the Run
sub-kind — one task over `[client a]` alone. -/
theorem createTasks_once_single_witness :
    ([ Task.cmd { run := "uptime", input := .noInput
                  clients := [Client.ssh "a"], tty := true } ] : List Task).length = 1
    ∧ ∀ t ∈ ([ Task.cmd { run := "uptime", input := .noInput
                          clients := [Client.ssh "a"], tty := true } ] : List Task),
        Task.clientsOf t = [Client.ssh "a"] :=
  (createTasks_once_single demoEnv { debug := false } demoCmdOnce
      (Client.ssh "a") [.ssh "b", .ssh "c", .ssh "d", .ssh "e"] "E;" "/w"
      rfl).2.2 _ (by decide) rfl

theorem appendPartitioned_ok_shape (task : CommandTask) (once : Bool)
    (serial : Int) (clients : List Client) (ts : List Task)
    (h : appendPartitioned task once serial clients = .ok ts) :
    ∀ t ∈ ts, ∃ g, t = Task.cmd { task with clients := g } := by
  unfold appendPartitioned at h
  split at h
  · split at h
    · exact Except.noConfusion h
    · cases h
      intro t ht
      rw [List.mem_singleton] at ht
      subst ht
      exact ⟨_, rfl⟩
  · split at h
    · cases h
      intro t ht
      rcases List.mem_map.mp ht with ⟨g, hg, rfl⟩
      exact ⟨g, rfl⟩
    · cases h
      intro t ht
      rw [List.mem_singleton] at ht
      subst ht
      exact ⟨clients, rfl⟩

theorem templateAppend_mem_shape (task : TemplateTask) (serial : Int)
    (clients : List Client) :
    ∀ t ∈ templateAppend task serial clients,
      ∃ g, t = Task.tmpl { task with clients := g } := by
  unfold templateAppend
  split
  · intro t ht
    rcases List.mem_map.mp ht with ⟨g, hg, rfl⟩
    exact ⟨g, rfl⟩
  · intro t ht
    rw [List.mem_singleton] at ht
    subst ht
    exact ⟨clients, rfl⟩

/-- The Local section, when populated, is exactly one localhost task. -/
theorem buildLocalTasks_eq (sup : Stackup) (cmd : Command) (env : String)
    (hL : cmd.Local ≠ "") :
    buildLocalTasks sup cmd env
      = [Task.cmd
          { run := if sup.debug then "set -x;" ++ cmd.Local else cmd.Local
            input := if cmd.Stdin then .stdin else .noInput
            clients := [Client.localhost (localhostEnv env) "localhost"]
            tty := true }] := by
  unfold buildLocalTasks
  rw [if_neg hL]

/-- C3: for a command specification with Upload, Template, Script, Local and
Run all populated, a successful `createTasks` returns the groups in exactly
that order — upload tasks (tar input, no TTY) first, then template tasks
(write-to-destination), then script tasks (script body, TTY), then the
single local task, then remote-run tasks (the `Run` string, TTY) — with the
`Serial`/`Once` partitioning applied independently inside each group by its
own section. -/
theorem createTasks_subkind_order (e : Env) (sup : Stackup) (cmd : Command)
    (clients : List Client) (env : String) (ts : List Task)
    (hU : cmd.Upload ≠ []) (hTs : cmd.Template.Src ≠ "")
    (hTd : cmd.Template.Dst ≠ "") (hS : cmd.Script ≠ "")
    (hL : cmd.Local ≠ "") (hR : cmd.Run ≠ "")
    (h : createTasks e sup cmd clients env = .ok ts) :
    ∃ cwd tsU tsT tsS tsR,
      e.getwd = .ok cwd
      ∧ buildUploadTasks e cmd clients env cwd cmd.Upload = .ok tsU
      ∧ buildTemplateTasks e cmd clients = .ok tsT
      ∧ buildScriptTasks e sup cmd clients = .ok tsS
      ∧ buildRunTasks sup cmd clients = .ok tsR
      ∧ ts = tsU ++ tsT ++ tsS ++ buildLocalTasks sup cmd env ++ tsR
      ∧ (∀ t ∈ tsU, ∃ ct : CommandTask, t = Task.cmd ct ∧ ct.tty = false
          ∧ ∃ s, ct.input = .tar s)
      ∧ (∀ t ∈ tsT, ∃ tt : TemplateTask, t = Task.tmpl tt
          ∧ tt.dst = cmd.Template.Dst)
      ∧ (∃ f data, e.openFile cmd.Script = .ok f ∧ e.readAll f = .ok data
          ∧ ∀ t ∈ tsS, ∃ ct : CommandTask, t = Task.cmd ct ∧ ct.tty = true
            ∧ ct.run = (if sup.debug then "set -x;" ++ data else data))
      ∧ buildLocalTasks sup cmd env
          = [Task.cmd
              { run := if sup.debug then "set -x;" ++ cmd.Local else cmd.Local
                input := if cmd.Stdin then .stdin else .noInput
                clients := [Client.localhost (localhostEnv env) "localhost"]
                tty := true }]
      ∧ (∀ t ∈ tsR, ∃ ct : CommandTask, t = Task.cmd ct ∧ ct.tty = true
          ∧ ct.run = (if sup.debug then "set -x;" ++ cmd.Run else cmd.Run)) := by
  rcases createTasks_ok_decomp e sup cmd clients env ts h with
    ⟨cwd, tsU, tsT, tsS, tsR, hgw, hu, ht, hs, hr, hts⟩
  refine ⟨cwd, tsU, tsT, tsS, tsR, hgw, hu, ht, hs, hr, hts, ?_, ?_, ?_,
    buildLocalTasks_eq sup cmd env hL, ?_⟩
  · intro t htm
    rcases buildUploadTasks_ok_mem e cmd clients env cwd cmd.Upload tsU hu t htm with
      ⟨task, htty, ⟨s, hinp⟩, sub, hap, hmem⟩
    rcases appendPartitioned_ok_shape task cmd.Once cmd.Serial clients sub hap t hmem with
      ⟨g, rfl⟩
    exact ⟨_, rfl, htty, ⟨s, hinp⟩⟩
  · intro t htm
    rcases buildTemplateTasks_ok_elim e cmd clients tsT hTs hTd ht with
      ⟨f, data, tp, vars, _, _, _, _, htsT⟩
    rw [htsT] at htm
    rcases templateAppend_mem_shape _ cmd.Serial clients t htm with ⟨g, rfl⟩
    exact ⟨_, rfl, rfl⟩
  · rcases buildScriptTasks_ok_elim e sup cmd clients tsS hS hs with
      ⟨f, data, hof, hrd, hap⟩
    refine ⟨f, data, hof, hrd, ?_⟩
    intro t htm
    rcases appendPartitioned_ok_shape _ cmd.Once cmd.Serial clients tsS hap t htm with
      ⟨g, rfl⟩
    exact ⟨_, rfl, rfl, rfl⟩
  · intro t htm
    have hap := buildRunTasks_ok_elim sup cmd clients tsR hR hr
    rcases appendPartitioned_ok_shape _ cmd.Once cmd.Serial clients tsR hap t htm with
      ⟨g, rfl⟩
    exact ⟨_, rfl, rfl, rfl⟩

/-- The full task list `createTasks` produces for `demoCmdSerial` over the
five demo clients with environment prefix `E;`. -/
def demoAllTasks : List Task :=
  [ .cmd { run := "tar -C d", input := .tar "tar:s"
           clients := [.ssh "a", .ssh "b"], tty := false },
    .cmd { run := "tar -C d", input := .tar "tar:s"
           clients := [.ssh "c", .ssh "d"], tty := false },
    .cmd { run := "tar -C d", input := .tar "tar:s"
           clients := [.ssh "e"], tty := false },
    .tmpl { tmpl := "parsed:data:tpl", dst := "out", vars := [("k", "v")]
            clients := [.ssh "a", .ssh "b"] },
    .tmpl { tmpl := "parsed:data:tpl", dst := "out", vars := [("k", "v")]
            clients := [.ssh "c", .ssh "d"] },
    .tmpl { tmpl := "parsed:data:tpl", dst := "out", vars := [("k", "v")]
            clients := [.ssh "e"] },
    .cmd { run := "data:sc.sh", input := .noInput
           clients := [.ssh "a", .ssh "b"], tty := true },
    .cmd { run := "data:sc.sh", input := .noInput
           clients := [.ssh "c", .ssh "d"], tty := true },
    .cmd { run := "data:sc.sh", input := .noInput
           clients := [.ssh "e"], tty := true },
    .cmd { run := "echo hi", input := .noInput
           clients := [.localhost "E;export SUP_HOST=\"localhost\";" "localhost"]
           tty := true },
    .cmd { run := "uptime", input := .noInput
           clients := [.ssh "a", .ssh "b"], tty := true },
    .cmd { run := "uptime", input := .noInput
           clients := [.ssh "c", .ssh "d"], tty := true },
    .cmd { run := "uptime", input := .noInput
           clients := [.ssh "e"], tty := true } ]

/-- Witness for C3: the all-populated demo command over five clients — the
thirteen returned tasks decompose into the five groups in declared order. -/
theorem createTasks_subkind_order_witness :
    ∃ cwd tsU tsT tsS tsR,
      demoEnv.getwd = .ok cwd
      ∧ buildUploadTasks demoEnv demoCmdSerial demoClients "E;" cwd
          demoCmdSerial.Upload = .ok tsU
      ∧ buildTemplateTasks demoEnv demoCmdSerial demoClients = .ok tsT
      ∧ buildScriptTasks demoEnv { debug := false } demoCmdSerial demoClients
          = .ok tsS
      ∧ buildRunTasks { debug := false } demoCmdSerial demoClients = .ok tsR
      ∧ demoAllTasks = tsU ++ tsT ++ tsS
          ++ buildLocalTasks { debug := false } demoCmdSerial "E;" ++ tsR
      ∧ (∀ t ∈ tsU, ∃ ct : CommandTask, t = Task.cmd ct ∧ ct.tty = false
          ∧ ∃ s, ct.input = .tar s)
      ∧ (∀ t ∈ tsT, ∃ tt : TemplateTask, t = Task.tmpl tt ∧ tt.dst = "out")
      ∧ (∃ f data, demoEnv.openFile demoCmdSerial.Script = .ok f
          ∧ demoEnv.readAll f = .ok data
          ∧ ∀ t ∈ tsS, ∃ ct : CommandTask, t = Task.cmd ct ∧ ct.tty = true
            ∧ ct.run = data)
      ∧ buildLocalTasks { debug := false } demoCmdSerial "E;"
          = [Task.cmd
              { run := "echo hi", input := .noInput
                clients := [Client.localhost (localhostEnv "E;") "localhost"]
                tty := true }]
      ∧ (∀ t ∈ tsR, ∃ ct : CommandTask, t = Task.cmd ct ∧ ct.tty = true
          ∧ ct.run = "uptime") :=
  createTasks_subkind_order demoEnv { debug := false } demoCmdSerial
    demoClients "E;" demoAllTasks (by decide) (by decide) (by decide)
    (by decide) (by decide) (by decide) rfl

/-- A template parse failure makes the Template section fail with the
wrapped parse error. -/
theorem buildTemplateTasks_parse_error (e : Env) (cmd : Command)
    (clients : List Client) (f data m : String)
    (hTs : cmd.Template.Src ≠ "") (hTd : cmd.Template.Dst ≠ "")
    (hof : e.openFile cmd.Template.Src = .ok f)
    (hrd : e.readAll f = .ok data)
    (hp : e.parseTemplate data = .error m) :
    buildTemplateTasks e cmd clients
      = .error (.fail ("can't parse template: " ++ m)) := by
  unfold buildTemplateTasks
  rw [if_neg (by simp [hTs, hTd]), hof, wrapE_ok, exceptBind_ok, hrd,
    wrapE_ok, exceptBind_ok, hp, wrapE_err, exceptBind_err]
  rfl

/-- C4: if a path-resolution, file-open, template-parse or variable-decode
step fails, `createTasks` returns an error and no task list; in particular a
template parse failure prevents every task — including the upload tasks
already constructed from the same command specification — from being
returned. -/
theorem createTasks_parse_failure_aborts (e : Env) (sup : Stackup)
    (cmd : Command) (clients : List Client) (env cwd : String)
    (tsU : List Task) (f data m : String)
    (hgw : e.getwd = .ok cwd)
    (hu : buildUploadTasks e cmd clients env cwd cmd.Upload = .ok tsU)
    (hTs : cmd.Template.Src ≠ "") (hTd : cmd.Template.Dst ≠ "")
    (hof : e.openFile cmd.Template.Src = .ok f)
    (hrd : e.readAll f = .ok data)
    (hp : e.parseTemplate data = .error m) :
    createTasks e sup cmd clients env
      = .error (.fail ("can't parse template: " ++ m))
    ∧ ∀ ts, createTasks e sup cmd clients env ≠ .ok ts := by
  have h1 : createTasks e sup cmd clients env
      = .error (.fail ("can't parse template: " ++ m)) := by
    unfold createTasks
    rw [hgw, wrapE_ok, exceptBind_ok, hu, exceptBind_ok,
      buildTemplateTasks_parse_error e cmd clients f data m hTs hTd hof hrd hp,
      exceptBind_err]
  exact ⟨h1, fun ts h2 => by rw [h1] at h2; exact Except.noConfusion h2⟩

/-- An oracle equal to `demoEnv` except that template parsing fails. -/
def demoEnvParseFail : Env :=
  { demoEnv with parseTemplate := fun _ => .error "unexpected EOF" }

/-- Witness for C4: with uploads succeeding and the template failing to
parse, the demo build returns only the wrapped parse error. -/
theorem createTasks_parse_failure_aborts_witness :
    createTasks demoEnvParseFail { debug := false } demoCmdSerial demoClients "E;"
      = .error (.fail ("can't parse template: " ++ "unexpected EOF"))
    ∧ ∀ ts, createTasks demoEnvParseFail { debug := false } demoCmdSerial
        demoClients "E;" ≠ .ok ts :=
  createTasks_parse_failure_aborts demoEnvParseFail { debug := false }
    demoCmdSerial demoClients "E;" "/w"
    [ .cmd { run := "tar -C d", input := .tar "tar:s"
             clients := [.ssh "a", .ssh "b"], tty := false },
      .cmd { run := "tar -C d", input := .tar "tar:s"
             clients := [.ssh "c", .ssh "d"], tty := false },
      .cmd { run := "tar -C d", input := .tar "tar:s"
             clients := [.ssh "e"], tty := false } ]
    "tpl" "data:tpl" "unexpected EOF" rfl rfl (by decide) (by decide) rfl rfl rfl

/-- A successful Template section with all steps given is the template
partition of the constructed template task. -/
theorem buildTemplateTasks_ok_eq (e : Env) (cmd : Command)
    (clients : List Client) (f data tp : String) (vars : VarMap)
    (hTs : cmd.Template.Src ≠ "") (hTd : cmd.Template.Dst ≠ "")
    (hof : e.openFile cmd.Template.Src = .ok f)
    (hrd : e.readAll f = .ok data)
    (hp : e.parseTemplate data = .ok tp)
    (hv : buildTemplateVars e cmd.Template.Vars = .ok vars) :
    buildTemplateTasks e cmd clients
      = .ok (templateAppend
          { tmpl := tp, dst := cmd.Template.Dst, vars := vars, clients := [] }
          cmd.Serial clients) := by
  unfold buildTemplateTasks
  rw [if_neg (by simp [hTs, hTd]), hof, wrapE_ok, exceptBind_ok, hrd,
    wrapE_ok, exceptBind_ok, hp, wrapE_ok, exceptBind_ok, hv, exceptBind_ok]

/-- C5: `Once` has no effect on template tasks.  Even with `Once = true`,
the Template section of `createTasks` yields, for `Serial = 0`, one template
task whose client set is the whole supplied list, and for `Serial = N > 0`,
the normal serial chunking. -/
theorem createTasks_template_ignores_once (e : Env) (cmd : Command)
    (clients : List Client) (f data tp : String) (vars : VarMap)
    (honce : cmd.Once = true)
    (hTs : cmd.Template.Src ≠ "") (hTd : cmd.Template.Dst ≠ "")
    (hof : e.openFile cmd.Template.Src = .ok f)
    (hrd : e.readAll f = .ok data)
    (hp : e.parseTemplate data = .ok tp)
    (hv : buildTemplateVars e cmd.Template.Vars = .ok vars) :
    (cmd.Serial = 0 →
      buildTemplateTasks e cmd clients
        = .ok [Task.tmpl { tmpl := tp, dst := cmd.Template.Dst, vars := vars
                           clients := clients }])
    ∧ ∀ N : Nat, 0 < N → cmd.Serial = (N : Int) →
      buildTemplateTasks e cmd clients
        = .ok ((chunks N clients).map fun g =>
            Task.tmpl { tmpl := tp, dst := cmd.Template.Dst, vars := vars
                        clients := g }) := by
  have he := buildTemplateTasks_ok_eq e cmd clients f data tp vars
    hTs hTd hof hrd hp hv
  constructor
  · intro hser
    rw [he, hser, templateAppend_noserial _ 0 le_rfl clients]
  · intro N hN hser
    rw [he, hser, templateAppend_serial _ N hN clients]

/-- Witness for C5: `Once = true`, `Serial = 2`, five clients — the Template
section still chunks into `[2, 2, 1]` instead of one single-client task. -/
theorem createTasks_template_ignores_once_witness :
    buildTemplateTasks demoEnv demoCmdOnce demoClients
      = .ok [ Task.tmpl { tmpl := "parsed:data:tpl", dst := "out"
                          vars := [("k", "v")]
                          clients := [.ssh "a", .ssh "b"] },
              Task.tmpl { tmpl := "parsed:data:tpl", dst := "out"
                          vars := [("k", "v")]
                          clients := [.ssh "c", .ssh "d"] },
              Task.tmpl { tmpl := "parsed:data:tpl", dst := "out"
                          vars := [("k", "v")]
                          clients := [.ssh "e"] } ] :=
  (createTasks_template_ignores_once demoEnv demoCmdOnce demoClients
      "tpl" "data:tpl" "parsed:data:tpl" [("k", "v")]
      rfl (by decide) (by decide) rfl rfl rfl rfl).2
    2 (by decide) (by decide)

theorem buildTemplateTasks_empty (e : Env) (cmd : Command)
    (clients : List Client)
    (hc : cmd.Template.Src = "" ∨ cmd.Template.Dst = "") :
    buildTemplateTasks e cmd clients = .ok [] := by
  unfold buildTemplateTasks
  rw [if_pos hc]

theorem buildScriptTasks_empty (e : Env) (sup : Stackup) (cmd : Command)
    (clients : List Client) (hc : cmd.Script = "") :
    buildScriptTasks e sup cmd clients = .ok [] := by
  unfold buildScriptTasks
  rw [if_pos hc]

theorem buildRunTasks_empty (sup : Stackup) (cmd : Command)
    (clients : List Client) (hc : cmd.Run = "") :
    buildRunTasks sup cmd clients = .ok [] := by
  unfold buildRunTasks
  rw [if_pos hc]

/-- C6: every task returned by a successful `createTasks` over a non-empty
client list either belongs to the Local section (whose task targets the
implicit localhost client rather than clients drawn from the list) or has a
non-empty client set that is a contiguous slice of the original client
ordering — partitioning groups clients without reordering them. -/
theorem createTasks_clients_contiguous (e : Env) (sup : Stackup)
    (cmd : Command) (clients : List Client) (env : String) (ts : List Task)
    (hne : clients ≠ []) (h : createTasks e sup cmd clients env = .ok ts) :
    ∀ t ∈ ts, t ∈ buildLocalTasks sup cmd env
      ∨ (Task.clientsOf t ≠ [] ∧ ContigIn (Task.clientsOf t) clients) := by
  rcases createTasks_ok_decomp e sup cmd clients env ts h with
    ⟨cwd, tsU, tsT, tsS, tsR, hgw, hu, ht, hs, hr, rfl⟩
  intro t htm
  rcases List.mem_append.mp htm with h4 | htmR
  · rcases List.mem_append.mp h4 with h3 | htmL
    · rcases List.mem_append.mp h3 with h2 | htmS
      · rcases List.mem_append.mp h2 with htmU | htmT
        · right
          rcases buildUploadTasks_ok_mem e cmd clients env cwd cmd.Upload
              tsU hu t htmU with ⟨task, _, _, sub, hap, hmem⟩
          exact (appendPartitioned_ok_clients task cmd.Once cmd.Serial
            clients sub hap hne t hmem).2
        · right
          by_cases hc : cmd.Template.Src = "" ∨ cmd.Template.Dst = ""
          · rw [buildTemplateTasks_empty e cmd clients hc] at ht
            cases ht
            cases htmT
          · push_neg at hc
            rcases buildTemplateTasks_ok_elim e cmd clients tsT
                hc.1 hc.2 ht with ⟨f, data, tp, vars, _, _, _, _, htsT⟩
            rw [htsT] at htmT
            exact (templateAppend_mem_clients _ cmd.Serial clients hne
              t htmT).2
      · right
        by_cases hc : cmd.Script = ""
        · rw [buildScriptTasks_empty e sup cmd clients hc] at hs
          cases hs
          cases htmS
        · rcases buildScriptTasks_ok_elim e sup cmd clients tsS hc hs with
            ⟨f, data, _, _, hap⟩
          exact (appendPartitioned_ok_clients _ cmd.Once cmd.Serial
            clients tsS hap hne t htmS).2
    · left
      exact htmL
  · right
    by_cases hc : cmd.Run = ""
    · rw [buildRunTasks_empty sup cmd clients hc] at hr
      cases hr
      cases htmR
    · have hap := buildRunTasks_ok_elim sup cmd clients tsR hc hr
      exact (appendPartitioned_ok_clients _ cmd.Once cmd.Serial
        clients tsR hap hne t htmR).2

/-- Witness for C6 on the all-populated demo command, instantiated at the
last remote-run task of the thirteen returned ones: it is the local task or
covers a non-empty contiguous slice of the five demo clients. -/
theorem createTasks_clients_contiguous_witness :
    Task.cmd { run := "uptime", input := .noInput
               clients := [.ssh "e"], tty := true }
      ∈ buildLocalTasks { debug := false } demoCmdSerial "E;"
    ∨ (Task.clientsOf (Task.cmd { run := "uptime", input := .noInput
                                  clients := [.ssh "e"], tty := true }) ≠ []
        ∧ ContigIn
            (Task.clientsOf (Task.cmd { run := "uptime", input := .noInput
                                        clients := [.ssh "e"], tty := true }))
            demoClients) :=
  createTasks_clients_contiguous demoEnv { debug := false } demoCmdSerial
    demoClients "E;" demoAllTasks (by decide) rfl
    (Task.cmd { run := "uptime", input := .noInput
                clients := [.ssh "e"], tty := true })
    (by decide)

/-- C7: per-client template rendering is idempotent and isolated: the call
leaves the task unchanged, re-rendering the same task for the same client
yields the same bytes, rendering for one client does not change what another
client receives, and the rendered bytes depend only on the parsed template
and the variable mapping — each invocation returns an independent buffer, so
one client's bytes never appear in another client's stream. -/
theorem inputForClient_pure (e : Env) (t t2 : TemplateTask) (c c2 : Client) :
    (TemplateTask.InputForClient e t c).2 = t
    ∧ (TemplateTask.InputForClient e (TemplateTask.InputForClient e t c).2 c).1
        = (TemplateTask.InputForClient e t c).1
    ∧ (TemplateTask.InputForClient e (TemplateTask.InputForClient e t c).2 c2).1
        = (TemplateTask.InputForClient e t c2).1
    ∧ (t.tmpl = t2.tmpl → t.vars = t2.vars →
        (TemplateTask.InputForClient e t c).1
          = (TemplateTask.InputForClient e t2 c).1) := by
  refine ⟨rfl, rfl, rfl, ?_⟩
  intro h1 h2
  simp only [TemplateTask.InputForClient]
  rw [h1, h2]

/-- A template task for client `a`. -/
def demoTmplA : TemplateTask :=
  { tmpl := "T", dst := "d1", vars := [("k", "v")], clients := [.ssh "a"] }

/-- A template task sharing `demoTmplA`'s template and variables but with a
different destination and client. -/
def demoTmplB : TemplateTask :=
  { tmpl := "T", dst := "d2", vars := [("k", "v")], clients := [.ssh "b"] }

/-- Witness for C7 on two template tasks sharing template and variables. -/
theorem inputForClient_pure_witness :
    (TemplateTask.InputForClient demoEnv demoTmplA (.ssh "a")).2 = demoTmplA
    ∧ (TemplateTask.InputForClient demoEnv
        (TemplateTask.InputForClient demoEnv demoTmplA (.ssh "a")).2 (.ssh "a")).1
        = (TemplateTask.InputForClient demoEnv demoTmplA (.ssh "a")).1
    ∧ (TemplateTask.InputForClient demoEnv
        (TemplateTask.InputForClient demoEnv demoTmplA (.ssh "a")).2 (.ssh "b")).1
        = (TemplateTask.InputForClient demoEnv demoTmplA (.ssh "b")).1
    ∧ (TemplateTask.InputForClient demoEnv demoTmplA (.ssh "a")).1
        = (TemplateTask.InputForClient demoEnv demoTmplB (.ssh "a")).1 :=
  have h := inputForClient_pure demoEnv demoTmplA demoTmplB (.ssh "a") (.ssh "b")
  ⟨h.1, h.2.1, h.2.2.1, h.2.2.2 rfl rfl⟩

/-- C9: with `Local` populated, `createTasks` appends for the Local sub-kind
exactly one command task over a single implicit localhost client whose
environment is the prefix extended with a `SUP_HOST="localhost"` binding,
with `TTY = true` and no `Once`/`Serial` partitioning, for every supplied
client list including the empty one. -/
theorem createTasks_local_single (e : Env) (sup : Stackup) (cmd : Command)
    (clients : List Client) (env : String) (ts : List Task)
    (hL : cmd.Local ≠ "") (h : createTasks e sup cmd clients env = .ok ts) :
    buildLocalTasks sup cmd env
      = [Task.cmd
          { run := if sup.debug then "set -x;" ++ cmd.Local else cmd.Local
            input := if cmd.Stdin then .stdin else .noInput
            clients := [Client.localhost
              (env ++ "export SUP_HOST=\"localhost\";") "localhost"]
            tty := true }]
    ∧ ∃ tsU tsT tsS tsR,
        ts = tsU ++ tsT ++ tsS
          ++ [Task.cmd
              { run := if sup.debug then "set -x;" ++ cmd.Local else cmd.Local
                input := if cmd.Stdin then .stdin else .noInput
                clients := [Client.localhost
                  (env ++ "export SUP_HOST=\"localhost\";") "localhost"]
                tty := true }] ++ tsR := by
  have hle : buildLocalTasks sup cmd env
      = [Task.cmd
          { run := if sup.debug then "set -x;" ++ cmd.Local else cmd.Local
            input := if cmd.Stdin then .stdin else .noInput
            clients := [Client.localhost
              (env ++ "export SUP_HOST=\"localhost\";") "localhost"]
            tty := true }] := buildLocalTasks_eq sup cmd env hL
  refine ⟨hle, ?_⟩
  rcases createTasks_ok_decomp e sup cmd clients env ts h with
    ⟨cwd, tsU, tsT, tsS, tsR, _, _, _, _, _, hts⟩
  rw [hle] at hts
  exact ⟨tsU, tsT, tsS, tsR, hts⟩

/-- A command populating only `Local` (with `Once` and `Serial` set, which
must not matter). -/
def demoCmdLocal : Command :=
  { Upload := [], Template := { Src := "", Dst := "", Vars := "" }
    Script := "", Local := "echo hi", Run := ""
    Once := true, Serial := 3, Stdin := false }

/-- Witness for C9: `Local = "echo hi"` over the empty client list — exactly
one task, `TTY = true`, client set the implicit localhost client. -/
theorem createTasks_local_single_witness :
    buildLocalTasks { debug := false } demoCmdLocal "E;"
      = [Task.cmd
          { run := "echo hi", input := .noInput
            clients := [Client.localhost "E;export SUP_HOST=\"localhost\";"
              "localhost"]
            tty := true }]
    ∧ ∃ tsU tsT tsS tsR,
        [Task.cmd
          { run := "echo hi", input := .noInput
            clients := [Client.localhost "E;export SUP_HOST=\"localhost\";"
              "localhost"]
            tty := true }]
          = tsU ++ tsT ++ tsS
            ++ [Task.cmd
                { run := "echo hi", input := .noInput
                  clients := [Client.localhost "E;export SUP_HOST=\"localhost\";"
                    "localhost"]
                  tty := true }] ++ tsR :=
  createTasks_local_single demoEnv { debug := false } demoCmdLocal [] "E;"
    [Task.cmd
      { run := "echo hi", input := .noInput
        clients := [Client.localhost "E;export SUP_HOST=\"localhost\";"
          "localhost"]
        tty := true }]
    (by decide) rfl

/-- An oracle equal to `demoEnv` except that YAML decoding fails with a
message that does not mention any path. -/
def demoEnvVarsFail : Env :=
  { demoEnv with yamlUnmarshal := fun _ => .error "yaml: could not decode" }

/-- A command populating only the Template sub-kind, with a variable file. -/
def demoCmdVars : Command :=
  { Upload := [], Template := { Src := "tpl", Dst := "out", Vars := "vars.yml" }
    Script := "", Local := "", Run := ""
    Once := false, Serial := 0, Stdin := false }

/-- Counterexample to C8: a decode failure in the variable file aborts
construction, but the resulting error message is the fixed prefix
`can't parse variables` followed by the decoder's own text — the variable
file path `vars.yml` does not appear in it, because `yaml.Unmarshal` only
receives the file's bytes and the wrap adds no path. -/
theorem createTasks_vars_error_no_path :
    createTasks demoEnvVarsFail { debug := false } demoCmdVars [] ""
      = .error (.fail "can't parse variables: yaml: could not decode")
    ∧ strAppears "vars.yml" "can't parse variables: yaml: could not decode"
        = false := ⟨rfl, rfl⟩

/-- A decode failure in the variable file fails the variable step with the
wrapped decoder error. -/
theorem buildTemplateVars_decode_error (e : Env) (varsPath vf vdata m : String)
    (hTv : varsPath ≠ "") (hvo : e.openFile varsPath = .ok vf)
    (hvr : e.readAll vf = .ok vdata)
    (hvd : e.yamlUnmarshal vdata = .error m) :
    buildTemplateVars e varsPath
      = .error (.fail ("can't parse variables: " ++ m)) := by
  unfold buildTemplateVars
  rw [if_neg hTv, hvo, wrapE_ok, exceptBind_ok, hvr, wrapE_ok, exceptBind_ok,
    hvd, wrapE_err]
  rfl

/-- C8 (amended): a decode failure in the variable file aborts the whole
construction, and the returned error is `can't parse variables: ` followed
by the decoder's message; the builder itself adds only that fixed prefix, so
the variable file path appears in the message only if the decoder's own text
happens to mention it. -/
theorem createTasks_vars_decode_aborts (e : Env) (sup : Stackup)
    (cmd : Command) (clients : List Client) (env cwd : String)
    (tsU : List Task) (f data tp vf vdata m : String)
    (hgw : e.getwd = .ok cwd)
    (hu : buildUploadTasks e cmd clients env cwd cmd.Upload = .ok tsU)
    (hTs : cmd.Template.Src ≠ "") (hTd : cmd.Template.Dst ≠ "")
    (hTv : cmd.Template.Vars ≠ "")
    (hof : e.openFile cmd.Template.Src = .ok f)
    (hrd : e.readAll f = .ok data)
    (hp : e.parseTemplate data = .ok tp)
    (hvo : e.openFile cmd.Template.Vars = .ok vf)
    (hvr : e.readAll vf = .ok vdata)
    (hvd : e.yamlUnmarshal vdata = .error m) :
    createTasks e sup cmd clients env
      = .error (.fail ("can't parse variables: " ++ m))
    ∧ ∀ ts, createTasks e sup cmd clients env ≠ .ok ts := by
  have hT : buildTemplateTasks e cmd clients
      = .error (.fail ("can't parse variables: " ++ m)) := by
    unfold buildTemplateTasks
    rw [if_neg (by simp [hTs, hTd]), hof, wrapE_ok, exceptBind_ok, hrd,
      wrapE_ok, exceptBind_ok, hp, wrapE_ok, exceptBind_ok,
      buildTemplateVars_decode_error e cmd.Template.Vars vf vdata m
        hTv hvo hvr hvd, exceptBind_err]
  have h1 : createTasks e sup cmd clients env
      = .error (.fail ("can't parse variables: " ++ m)) := by
    unfold createTasks
    rw [hgw, wrapE_ok, exceptBind_ok, hu, exceptBind_ok, hT, exceptBind_err]
  exact ⟨h1, fun ts h2 => by rw [h1] at h2; exact Except.noConfusion h2⟩

/-- Witness for the amended C8 at the concrete fixture of the
counterexample. -/
theorem createTasks_vars_decode_aborts_witness :
    createTasks demoEnvVarsFail { debug := false } demoCmdVars [] ""
      = .error (.fail ("can't parse variables: " ++ "yaml: could not decode"))
    ∧ ∀ ts, createTasks demoEnvVarsFail { debug := false } demoCmdVars [] ""
        ≠ .ok ts :=
  createTasks_vars_decode_aborts demoEnvVarsFail { debug := false }
    demoCmdVars [] "" "/w" [] "tpl" "data:tpl" "parsed:data:tpl"
    "vars.yml" "data:vars.yml" "yaml: could not decode"
    rfl rfl (by decide) (by decide) (by decide) rfl rfl rfl rfl rfl rfl

theorem exceptBind_error_elim (x : Except ε α) (f : α → Except ε β) (ge : ε)
    (h : (x >>= f) = .error ge) :
    x = .error ge ∨ ∃ a, x = .ok a ∧ f a = .error ge := by
  cases x with
  | error m =>
    rw [exceptBind_err] at h
    exact .inl (congrArg Except.error (Except.error.inj h))
  | ok a =>
    rw [exceptBind_ok] at h
    exact .inr ⟨a, rfl, h⟩

/-- The only failing outcome of the partition tail is the `Once` indexing
panic on an empty client list. -/
theorem wrapE_error_fail (msg : String) (x : Except String α) (ge : GoErr)
    (h : wrapE msg x = .error ge) : ∃ m, ge = .fail m := by
  rcases wrapE_error_elim msg x ge h with ⟨m, hm⟩
  exact ⟨_, hm⟩

theorem appendPartitioned_error_elim (task : CommandTask) (once : Bool)
    (serial : Int) (clients : List Client) (ge : GoErr)
    (h : appendPartitioned task once serial clients = .error ge) :
    clients = [] ∧ once = true
      ∧ ge = .panic "runtime error: index out of range [0] with length 0" := by
  unfold appendPartitioned at h
  split at h
  · rename_i honce
    split at h
    · rename_i heq
      exact ⟨rfl, honce, (Except.error.inj h).symm⟩
    · exact Except.noConfusion h
  · split at h
    · exact Except.noConfusion h
    · exact Except.noConfusion h

theorem buildRunTasks_error_elim (sup : Stackup) (cmd : Command)
    (clients : List Client) (ge : GoErr)
    (h : buildRunTasks sup cmd clients = .error ge) :
    clients = [] ∧ cmd.Once = true
      ∧ ge = .panic "runtime error: index out of range [0] with length 0" := by
  unfold buildRunTasks at h
  split at h
  · exact Except.noConfusion h
  · exact appendPartitioned_error_elim _ _ _ _ _ h

theorem buildScriptTasks_error_elim (e : Env) (sup : Stackup) (cmd : Command)
    (clients : List Client) (ge : GoErr)
    (h : buildScriptTasks e sup cmd clients = .error ge) :
    (∃ m, ge = .fail m)
    ∨ (clients = [] ∧ cmd.Once = true
        ∧ ge = .panic "runtime error: index out of range [0] with length 0") := by
  unfold buildScriptTasks at h
  split at h
  · exact Except.noConfusion h
  · rcases exceptBind_error_elim _ _ _ h with h1 | ⟨f, hf, h2⟩
    · exact .inl (wrapE_error_fail _ _ _ h1)
    · rcases exceptBind_error_elim _ _ _ h2 with h3 | ⟨data, hd, h4⟩
      · exact .inl (wrapE_error_fail _ _ _ h3)
      · exact .inr (appendPartitioned_error_elim _ _ _ _ _ h4)

theorem buildTemplateVars_error_elim (e : Env) (varsPath : String)
    (ge : GoErr) (h : buildTemplateVars e varsPath = .error ge) :
    ∃ m, ge = .fail m := by
  unfold buildTemplateVars at h
  split at h
  · exact Except.noConfusion h
  · rcases exceptBind_error_elim _ _ _ h with h1 | ⟨a, _, h2⟩
    · exact wrapE_error_fail _ _ _ h1
    · rcases exceptBind_error_elim _ _ _ h2 with h3 | ⟨b, _, h4⟩
      · exact wrapE_error_fail _ _ _ h3
      · exact wrapE_error_fail _ _ _ h4

theorem buildTemplateTasks_error_elim (e : Env) (cmd : Command)
    (clients : List Client) (ge : GoErr)
    (h : buildTemplateTasks e cmd clients = .error ge) :
    ∃ m, ge = .fail m := by
  unfold buildTemplateTasks at h
  split at h
  · exact Except.noConfusion h
  · rcases exceptBind_error_elim _ _ _ h with h1 | ⟨f, _, h2⟩
    · exact wrapE_error_fail _ _ _ h1
    · rcases exceptBind_error_elim _ _ _ h2 with h3 | ⟨data, _, h4⟩
      · exact wrapE_error_fail _ _ _ h3
      · rcases exceptBind_error_elim _ _ _ h4 with h5 | ⟨tp, _, h6⟩
        · exact wrapE_error_fail _ _ _ h5
        · rcases exceptBind_error_elim _ _ _ h6 with h7 | ⟨vars, _, h8⟩
          · exact buildTemplateVars_error_elim _ _ _ h7
          · exact Except.noConfusion h8

theorem buildUploadTasks_error_elim (e : Env) (cmd : Command)
    (clients : List Client) (env cwd : String) (us : List UploadSpec)
    (ge : GoErr) (h : buildUploadTasks e cmd clients env cwd us = .error ge) :
    (∃ m, ge = .fail m)
    ∨ (clients = [] ∧ cmd.Once = true
        ∧ ge = .panic "runtime error: index out of range [0] with length 0") := by
  induction us generalizing ge with
  | nil =>
    rw [buildUploadTasks_nil] at h
    exact Except.noConfusion h
  | cons u rest ih =>
    unfold buildUploadTasks at h
    rcases exceptBind_error_elim _ _ _ h with h1 | ⟨file, _, h2⟩
    · exact .inl (wrapE_error_fail _ _ _ h1)
    · rcases exceptBind_error_elim _ _ _ h2 with h3 | ⟨tar, _, h4⟩
      · exact .inl (wrapE_error_fail _ _ _ h3)
      · rcases exceptBind_error_elim _ _ _ h4 with h5 | ⟨sub, _, h6⟩
        · exact .inr (appendPartitioned_error_elim _ _ _ _ _ h5)
        · rcases exceptBind_error_elim _ _ _ h6 with h7 | ⟨more, _, h8⟩
          · exact ih _ h7
          · exact Except.noConfusion h8

/-- Any failing `createTasks` outcome is either a returned error value or
the `Once`-on-empty-list indexing panic. -/
theorem createTasks_error_elim (e : Env) (sup : Stackup) (cmd : Command)
    (clients : List Client) (env : String) (ge : GoErr)
    (h : createTasks e sup cmd clients env = .error ge) :
    (∃ m, ge = .fail m)
    ∨ (clients = [] ∧ cmd.Once = true
        ∧ ge = .panic "runtime error: index out of range [0] with length 0") := by
  unfold createTasks at h
  rcases exceptBind_error_elim _ _ _ h with h1 | ⟨cwd, _, h2⟩
  · exact .inl (wrapE_error_fail _ _ _ h1)
  · rcases exceptBind_error_elim _ _ _ h2 with h3 | ⟨tsU, _, h4⟩
    · exact buildUploadTasks_error_elim _ _ _ _ _ _ _ h3
    · rcases exceptBind_error_elim _ _ _ h4 with h5 | ⟨tsT, _, h6⟩
      · exact .inl (buildTemplateTasks_error_elim _ _ _ _ h5)
      · rcases exceptBind_error_elim _ _ _ h6 with h7 | ⟨tsS, _, h8⟩
        · exact buildScriptTasks_error_elim _ _ _ _ _ h7
        · rcases exceptBind_error_elim _ _ _ h8 with h9 | ⟨tsR, _, h10⟩
          · exact .inr (buildRunTasks_error_elim _ _ _ _ h9)
          · exact Except.noConfusion h10

/-- The Remote-run partition of an empty client list under `Once` is the
indexing panic. -/
theorem buildRunTasks_once_nil (sup : Stackup) (cmd : Command)
    (hR : cmd.Run ≠ "") (honce : cmd.Once = true) :
    buildRunTasks sup cmd []
      = .error (.panic "runtime error: index out of range [0] with length 0") := by
  unfold buildRunTasks
  rw [if_neg hR, honce, appendPartitioned_once_nil]

/-- C10: the `Once` branches index `clients[0]` with no emptiness guard.  On
a non-empty client list every failing `createTasks` outcome is a returned
error value; on an empty client list with `Once = true` and a populated Run
sub-kind (the Upload and Script sub-kinds empty, so that the Run branch is
reached) the builder faults with the indexing panic instead of returning an
error value. -/
theorem createTasks_once_empty_faults (sup : Stackup) (cmd : Command)
    (env : String) :
    (∀ (e : Env) (clients : List Client) (ge : GoErr), clients ≠ [] →
        createTasks e sup cmd clients env = .error ge → ∃ m, ge = .fail m)
    ∧ (∀ (e : Env) (cwd : String), cmd.Once = true → cmd.Upload = [] →
        cmd.Template.Src = "" → cmd.Script = "" → cmd.Run ≠ "" →
        e.getwd = .ok cwd →
        createTasks e sup cmd [] env
          = .error (.panic "runtime error: index out of range [0] with length 0")) := by
  constructor
  · intro e clients ge hne h
    rcases createTasks_error_elim e sup cmd clients env ge h with h1 | ⟨hcl, _, _⟩
    · exact h1
    · exact absurd hcl hne
  · intro e cwd honce hU hTs hS hR hgw
    unfold createTasks
    rw [hgw, wrapE_ok, exceptBind_ok, hU, buildUploadTasks_nil, exceptBind_ok,
      buildTemplateTasks_empty e cmd [] (Or.inl hTs), exceptBind_ok,
      buildScriptTasks_empty e sup cmd [] hS, exceptBind_ok,
      buildRunTasks_once_nil sup cmd hR honce, exceptBind_err]

/-- A command populating only `Run`, with `Once = true`. -/
def demoCmdOnceRun : Command :=
  { Upload := [], Template := { Src := "", Dst := "", Vars := "" }
    Script := "", Local := "", Run := "uptime"
    Once := true, Serial := 0, Stdin := false }

/-- An oracle equal to `demoEnv` except that resolving the working directory
fails. -/
def demoEnvGwFail : Env := { demoEnv with getwd := .error "no cwd" }

/-- Witness for C10: on five clients a failing build returns an error value
(here a failing `Getwd`); on the empty client list with `Once = true` and
`Run` populated the build ends in the indexing panic. -/
theorem createTasks_once_empty_faults_witness :
    (∃ m, GoErr.fail "resolving CWD failed: no cwd" = .fail m)
    ∧ createTasks demoEnv { debug := false } demoCmdOnceRun [] ""
        = .error (.panic "runtime error: index out of range [0] with length 0") :=
  have h := createTasks_once_empty_faults { debug := false } demoCmdOnceRun ""
  ⟨h.1 demoEnvGwFail demoClients (.fail "resolving CWD failed: no cwd")
      (by decide) rfl,
   h.2 demoEnv "/w" rfl rfl rfl rfl (by decide) rfl⟩

end Sup
